import Mathlib

/-!
Verification development for the LeanFeastAI backend.

The definitions below are a shallow embedding of the recipe-generation
pipeline of the repository:
  * `findSimilarRecipes` embeds `SimilarityService.find_similar_recipes`
    (src/backend/services/similarity_service.py, lines 65-205);
  * `parseCalorieRange`, `calorieIssues`, `proteinIssues`,
    `validateConstraints`, `constraintLoop` and `generateRecipePipeline`
    embed the `generate_recipe` endpoint orchestration
    (src/backend/main.py, lines 697-974);
  * `runGen` embeds the retry loop of `RecipeService.generate_recipe`
    (src/backend/services/recipe_service.py, lines 346-402);
  * `runNutrition` embeds `NutritionService.get_recipe_nutrition`
    (src/backend/services/nutrition_service.py, lines 125-227).

Machine floats of the source are modelled as exact rationals (only
comparisons and linear arithmetic on them matter for the properties
proved here); external calls are modelled as oracles `Nat → Outcome`
giving the outcome of the k-th call of the run.
-/

/-! ### Similarity ranker (similarity_service.py) -/

/-- One raw Pinecone match as consumed by `find_similar_recipes`:
its `score`, `metadata["id"]`, `match["id"]` and (standing for the
remaining metadata fields, which the ranking logic never inspects)
the `title`. -/
structure PMatch where
  score : ℚ
  metaId : Option String
  matchId : Option String
  title : String
deriving DecidableEq

/-- One formatted result dict of `find_similar_recipes` (the fields the
ranking logic reads: resolved id, title, `similarity_score`,
`is_user_saved`, `is_user_liked`). -/
structure Candidate where
  id : String
  title : String
  similarity_score : ℚ
  is_user_saved : Bool
  is_user_liked : Bool
deriving DecidableEq

/-- Python truthiness of an optional string: `None` and `""` are falsy. -/
def pyTruthy (s : Option String) : Bool :=
  match s with
  | none => false
  | some v => !v.isEmpty

/-- Model of `recipe_id = metadata.get("id") or match.get("id")` followed by
`if not recipe_id: continue` (lines 149-152): the metadata id if truthy,
else the match id, and `none` when the result is still falsy. -/
def resolveId (m : PMatch) : Option String :=
  let rid := if pyTruthy m.metaId then m.metaId else m.matchId
  if pyTruthy rid then rid else none

/-- Source: `self.similarity_threshold = 0.75` (lines 24, 29). -/
def similarityThreshold : ℚ := 75 / 100

/-- The filtering/formatting loop of lines 140-171: drop matches with
`score < similarity_threshold`, drop matches without a resolvable id,
and build the result dict with the two affinity flags from the user's
saved/liked id sets. -/
def buildResults (savedIds likedIds : List String) : List PMatch → List Candidate
  | [] => []
  | m :: ms =>
    if m.score < similarityThreshold then buildResults savedIds likedIds ms
    else
      match resolveId m with
      | none => buildResults savedIds likedIds ms
      | some rid =>
        { id := rid, title := m.title, similarity_score := m.score,
          is_user_saved := savedIds.contains rid,
          is_user_liked := likedIds.contains rid } :: buildResults savedIds likedIds ms

/-- Stable insertion of `x` before the first element `y` with
`ge x y = true`; together with `sortDescBy` this models Python's stable
`list.sort(key=k, reverse=True)`, whose output is non-increasing in the
key and keeps the original order of key-ties. -/
def insertDescBy {α : Type} (ge : α → α → Bool) (x : α) : List α → List α
  | [] => [x]
  | y :: ys => if ge x y then x :: y :: ys else y :: insertDescBy ge x ys

/-- Stable descending sort by the reflexive comparator `ge`
(`ge x y` = "key of x ≥ key of y"). -/
def sortDescBy {α : Type} (ge : α → α → Bool) : List α → List α
  | [] => []
  | x :: xs => insertDescBy ge x (sortDescBy ge xs)

/-- The sort key's first component on the affinity branch (line 180):
`0 if r.get("is_user_saved") else (1 if r.get("is_user_liked") else 2)`. -/
def affinityRank (c : Candidate) : Nat :=
  if c.is_user_saved then 0 else if c.is_user_liked then 1 else 2

/-- Lexicographic `≥` on the Python sort key
`(affinityRank r, r.similarity_score)`; `sort(..., reverse=True)`
orders the list with this key non-increasing (lines 178-184). -/
def affinityKeyGe (x y : Candidate) : Bool :=
  if affinityRank x = affinityRank y then
    decide (y.similarity_score ≤ x.similarity_score)
  else decide (affinityRank y < affinityRank x)

/-- Comparator `≥` on the score-only key used when the user has no saved/liked
items (line 187). -/
def scoreKeyGe (x y : Candidate) : Bool :=
  decide (y.similarity_score ≤ x.similarity_score)

/-- Model of `SimilarityService.find_similar_recipes` (lines 65-199) restricted to
its pure ranking core: `matches` are the raw Pinecone matches returned by
the index query, `savedIds`/`likedIds` the id lists read from the user's
profile (empty when `userId` is falsy, mirroring the
`if user_id and db_service` guard of line 95).  Filter by threshold and
id, sort (affinity branch iff `user_id` is truthy and either set is
non-empty, line 176), truncate to `top_k` (line 190). -/
def findSimilarRecipes (rawMatches : List PMatch) (topK : Nat) (userId : Option String)
    (savedIds likedIds : List String) : List Candidate :=
  let saved := if pyTruthy userId then savedIds else []
  let liked := if pyTruthy userId then likedIds else []
  let results := buildResults saved liked rawMatches
  let sorted :=
    if pyTruthy userId && (!saved.isEmpty || !liked.isEmpty) then
      sortDescBy affinityKeyGe results
    else sortDescBy scoreKeyGe results
  sorted.take topK

/-! ### Calorie-range parsing (main.py, lines 697-723) -/

/-- Value of a non-empty decimal digit string (`float(match.group(i))`
applied to a `\d+` capture is exact, so a natural number suffices). -/
def digitsToNat (l : List Char) : Nat :=
  l.foldl (fun n c => n * 10 + (c.toNat - 48)) 0

/-- The regex match `re.match(r"^\s*(\d+)\s*-\s*(\d+)\s*$", s)` of
line 701: optional whitespace, one-or-more digits, optional whitespace,
a literal dash, optional whitespace, one-or-more digits, optional
whitespace, end of string.  Returns the two captured numbers.
(The character classes `\s`/`\d` are modelled by `Char.isWhitespace` /
`Char.isDigit`; since digits, whitespace and `-` are disjoint classes,
the greedy match is deterministic.) -/
def matchCalorieRange (s : List Char) : Option (Nat × Nat) :=
  let l1 := s.dropWhile Char.isWhitespace
  let d1 := l1.takeWhile Char.isDigit
  let r1 := l1.dropWhile Char.isDigit
  if d1.isEmpty then none
  else
    match r1.dropWhile Char.isWhitespace with
    | '-' :: rest =>
      let l3 := rest.dropWhile Char.isWhitespace
      let d2 := l3.takeWhile Char.isDigit
      let r2 := l3.dropWhile Char.isDigit
      if d2.isEmpty then none
      else if (r2.dropWhile Char.isWhitespace).isEmpty then
        some (digitsToNat d1, digitsToNat d2)
      else none
    | _ => none

/-- The `target_calories`/`min_calories` pair: both are set together
(lines 707-708), with `target_calories = max_cal` and
`min_calories = min_cal`. -/
structure CalorieTargets where
  target_calories : ℚ
  min_calories : ℚ
deriving DecidableEq

/-- Lines 697-723: `target_calories`/`min_calories` stay `None` unless
`calorie_range` is truthy, matches the pattern, and `max_cal > min_cal`.
(`float` of a digit capture cannot raise, so the `except ValueError`
of line 719 is dead code.) -/
def parseCalorieRange (calorieRange : Option String) : Option CalorieTargets :=
  match calorieRange with
  | none => none
  | some s =>
    if s.isEmpty then none
    else
      match matchCalorieRange s.toList with
      | none => none
      | some (minCal, maxCal) =>
        if (minCal : ℚ) < (maxCal : ℚ) then
          some { target_calories := (maxCal : ℚ), min_calories := (minCal : ℚ) }
        else none

/-! ### Constraint validation (main.py, lines 838-889) -/

/-- One `ConstraintIssue` string appended to `current_attempt_issues`;
each constructor corresponds to one f-string of lines 845-887 and carries
the numbers interpolated into it. -/
inductive Issue
  /-- line 845: "Nutrition analysis failed. Cannot validate calories
  against target range: {min}-{target} kcal." -/
  | calNutritionUnavailable (minCal target : ℚ)
  /-- line 852: "Calories too low: {actual} kcal (target range:
  {min}-{target} kcal). Need to increase calories by at least
  {increaseBy} kcal." -/
  | calTooLowBelowMin (actual minCal target increaseBy : ℚ)
  /-- line 862: "Calories too high: {actual} kcal (target: {target} kcal,
  difference: {diff} kcal). Need to reduce calories by {reduceBy} kcal." -/
  | calTooHigh (actual target diff reduceBy : ℚ)
  /-- line 867: "Calories too low: {actual} kcal (target: {target} kcal,
  difference: {diff} kcal). Need to increase calories by {increaseBy}
  kcal." -/
  | calTooLowDiff (actual target diff increaseBy : ℚ)
  /-- line 880: "Protein too low: {aps}g per serving (target: {target}g
  per serving). ..." -/
  | proteinTooLow (actualPerServing target : ℚ)
  /-- line 885: "Protein too high: {aps}g per serving (target: {target}g
  per serving). ..." -/
  | proteinTooHigh (actualPerServing target : ℚ)
deriving DecidableEq

/-- The calorie block of lines 842-871: no issue without a calorie
constraint; "nutrition unavailable" when `actual_calories is None`;
the below-`min − 100` branch; otherwise the `|actual − target| ≥ 100`
branch split into too-high/too-low.  Every issue appended here is paired
in the source with `constraints_met = False`, so the calorie check fails
iff this list is non-empty. -/
def calorieIssues (ct : Option CalorieTargets) (actualCalories : Option ℚ) :
    List Issue :=
  match ct with
  | none => []
  | some t =>
    match actualCalories with
    | none => [Issue.calNutritionUnavailable t.min_calories t.target_calories]
    | some a =>
      if a < t.min_calories - 100 then
        [Issue.calTooLowBelowMin a t.min_calories t.target_calories
          (t.min_calories - a)]
      else
        let diff := |a - t.target_calories|
        if 100 ≤ diff then
          if t.target_calories < a then
            [Issue.calTooHigh a t.target_calories diff (a - t.target_calories)]
          else
            [Issue.calTooLowDiff a t.target_calories diff (t.target_calories - a)]
        else []

/-- Source: `protein_tolerance = 10.0` (line 727). -/
def proteinTolerance : ℚ := 10

/-- The protein block of lines 873-889, issue part: entered only when a
protein target is set and `actual_protein is not None`; the message is
"too low"/"too high" according to the inner comparisons of lines
879 and 884. -/
def proteinIssues (proteinTarget : Option ℚ) (servingSize : ℚ)
    (actualProtein : Option ℚ) : List Issue :=
  match proteinTarget, actualProtein with
  | some t, some p =>
    let aps := p / servingSize
    if proteinTolerance < |aps - t| then
      if aps < t - proteinTolerance then [Issue.proteinTooLow aps t]
      else if t + proteinTolerance < aps then [Issue.proteinTooHigh aps t]
      else []
    else []
  | _, _ => []

/-- In the protein block, `constraints_met = False` is set (line 889)
whenever `protein_diff > protein_tolerance`, independently of which
message branch fired. -/
def proteinMet (proteinTarget : Option ℚ) (servingSize : ℚ)
    (actualProtein : Option ℚ) : Bool :=
  match proteinTarget, actualProtein with
  | some t, some p => decide (|p / servingSize - t| ≤ proteinTolerance)
  | _, _ => true

/-- Result of one pass over lines 838-889: the accumulated
`current_attempt_issues` and the `constraints_met` flag. -/
structure ValidationResult where
  issues : List Issue
  constraintsMet : Bool
deriving DecidableEq

/-- One constraint-validation pass (lines 838-889).  In the source every
calorie issue comes with `constraints_met = False` and conversely, so the
calorie contribution to the flag is `calorieIssues ... = []`; the protein
contribution is `proteinMet`. -/
def validateConstraints (ct : Option CalorieTargets) (proteinTarget : Option ℚ)
    (servingSize : ℚ) (actualCalories actualProtein : Option ℚ) :
    ValidationResult :=
  let calIss := calorieIssues ct actualCalories
  let protIss := proteinIssues proteinTarget servingSize actualProtein
  { issues := calIss ++ protIss,
    constraintsMet :=
      calIss.isEmpty && proteinMet proteinTarget servingSize actualProtein }

/-! ### Generation orchestration (main.py, lines 737-974) -/

/-- The parsed recipe draft as consumed by the constraint loop.  Of the
draft's fields only `serving_size` is read by the validation logic
(line 875); the others (title, ingredients, steps, ...) are passed
through to the nutrition evaluator and persistence and do not influence
any property proved here, so the one consulted field stands for the
draft. -/
structure Recipe where
  servingSize : ℚ
deriving DecidableEq

/-- The two keys of `nutrition_data` read by the loop (lines 814-827);
a missing or non-castable entry is `none`.  The falsy dict `{}` (after
`... or {}` and the exception handlers) is `⟨none, none⟩`. -/
structure NutritionData where
  calories : Option ℚ
  protein : Option ℚ
deriving DecidableEq

/-- Oracles for the two external calls of the orchestration:
`draft k` is the outcome of the k-th `recipe_service.generate_recipe`
call (k = 0 the Phase-1 call of line 739, k ≥ 1 the regeneration calls of
line 927), `.error ()` meaning the call raised after its internal
retries; `nutrition k` is the k-th `get_recipe_nutrition` result, where
`none` covers `None`, an empty dict and the exception handlers of
lines 791-793 / 956-958 (all of which leave `nutrition_data = {}`). -/
structure PipelineEnv where
  draft : Nat → Except Unit Recipe
  nutrition : Nat → Option NutritionData

/-- How the orchestration left the Phase-3 loop. -/
inductive ExitReason
  /-- The `break` of line 836: no calorie and no protein constraint. -/
  | noConstraints
  /-- The `break` of line 910: `constraints_met`. -/
  | satisfied
  /-- The `break` of line 967: a regeneration call raised; proceed with the
  last known-good draft. -/
  | regenFailed
  /-- The `break` of line 974: bound reached with checks still failing. -/
  | exhausted
  /-- the `while` condition itself became false (unreachable from
  `constraint_attempts = 0`). -/
  | loopConditionFalse
  /-- Phase 1 raised: `HTTPException(500)` of line 753, no draft. -/
  | initialDraftFailed
deriving DecidableEq

/-- Observable outcome of one orchestration run: number of
`generate_recipe` calls, number of `get_recipe_nutrition` calls, how the
loop exited, and the draft/nutrition pair handed to Phase 4. -/
structure PipelineResult where
  draftCalls : Nat
  nutritionCalls : Nat
  exitReason : ExitReason
  finalRecipe : Option Recipe
  finalNutrition : Option NutritionData
deriving DecidableEq

/-- Source: `max_constraint_attempts = 3` (line 810). -/
def maxConstraintAttempts : Nat := 3

/-- The Phase-3 `while constraint_attempts < max_constraint_attempts`
loop (lines 813-974).  Per iteration: extract `actual_calories` /
`actual_protein` from the current nutrition data (lines 814-827), break
if no constraint is set (line 834), validate (lines 838-889), break when
met (line 910); otherwise, if `constraint_attempts <
max_constraint_attempts - 1`, increment the counter and regenerate with
feedback plus a fresh nutrition analysis (lines 913-959), a raising
regeneration breaking with the current draft (lines 960-967); else break
exhausted (lines 968-974).  `draftCallsSoFar`/`nutritionCallsSoFar`
thread the call counts.  The recursion measure
`maxConstraintAttempts - attempts` decreases because the only looping
path requires `attempts < maxConstraintAttempts - 1` and increments
`attempts`: this is the termination argument for the source loop. -/
def constraintLoop (env : PipelineEnv) (ct : Option CalorieTargets)
    (proteinTarget : Option ℚ) (recipe : Recipe) (nut : Option NutritionData)
    (attempts draftCallsSoFar nutritionCallsSoFar : Nat) : PipelineResult :=
  if _h : attempts < maxConstraintAttempts then
    let actualCalories := nut.bind (·.calories)
    let actualProtein := nut.bind (·.protein)
    if ct.isNone && proteinTarget.isNone then
      { draftCalls := draftCallsSoFar, nutritionCalls := nutritionCallsSoFar,
        exitReason := .noConstraints, finalRecipe := some recipe,
        finalNutrition := nut }
    else
      let v := validateConstraints ct proteinTarget recipe.servingSize
        actualCalories actualProtein
      if v.constraintsMet then
        { draftCalls := draftCallsSoFar, nutritionCalls := nutritionCallsSoFar,
          exitReason := .satisfied, finalRecipe := some recipe,
          finalNutrition := nut }
      else if _h2 : attempts < maxConstraintAttempts - 1 then
        match env.draft (attempts + 1) with
        | .error _ =>
          { draftCalls := draftCallsSoFar + 1,
            nutritionCalls := nutritionCallsSoFar,
            exitReason := .regenFailed, finalRecipe := some recipe,
            finalNutrition := nut }
        | .ok r' =>
          constraintLoop env ct proteinTarget r' (env.nutrition (attempts + 1))
            (attempts + 1) (draftCallsSoFar + 1) (nutritionCallsSoFar + 1)
      else
        { draftCalls := draftCallsSoFar, nutritionCalls := nutritionCallsSoFar,
          exitReason := .exhausted, finalRecipe := some recipe,
          finalNutrition := nut }
  else
    { draftCalls := draftCallsSoFar, nutritionCalls := nutritionCallsSoFar,
      exitReason := .loopConditionFalse, finalRecipe := some recipe,
      finalNutrition := nut }
termination_by maxConstraintAttempts - attempts
decreasing_by simp [maxConstraintAttempts] at *; omega

/-- The synchronous `generate_recipe` endpoint orchestration restricted
to its draft/nutrition/validation core: parse the calorie range
(lines 697-723), Phase-1 initial draft (line 739, a raise becoming the
500 of line 753), Phase-2 nutrition analysis (line 780), then the
Phase-3 loop starting at `constraint_attempts = 0` with one draft and
one nutrition call already performed. -/
def generateRecipePipeline (env : PipelineEnv) (calorieRange : Option String)
    (proteinTarget : Option ℚ) : PipelineResult :=
  let ct := parseCalorieRange calorieRange
  match env.draft 0 with
  | .error _ =>
    { draftCalls := 1, nutritionCalls := 0, exitReason := .initialDraftFailed,
      finalRecipe := none, finalNutrition := none }
  | .ok r0 =>
    constraintLoop env ct proteinTarget r0 (env.nutrition 0) 0 1 1

/-! ### Draft producer retry loop (recipe_service.py, lines 346-402) -/

/-- Outcome of one `self.llm.invoke` + parse attempt of the loop body
(lines 350-397), as decided by the upstream model/parser. -/
inductive DraftOutcome
  /-- invoke succeeded and `output_parser.parse` returned a draft. -/
  | success (r : Recipe)
  /-- The `parse` call raised a pydantic `ValidationError` (line 368). -/
  | validationError
  /-- The `parse` call raised some other exception (line 373). -/
  | parseError
  /-- The `invoke` call raised `LangChainException`/`ConnectionError`/
  `TimeoutError` (line 383). -/
  | transient
  /-- The `invoke` call raised any other exception (line 394). -/
  | otherError
deriving DecidableEq

/-- The exception that `RecipeService.generate_recipe` lets escape. -/
inductive GenError
  /-- The `ValueError("Failed to parse recipe output: ...")` raised on a
  validation error (line 372) or on a parse error at the last attempt
  (line 381). -/
  | parseFailure
  /-- the re-raised transient exception of line 393 (or the dead
  post-loop `raise last_error` of line 401). -/
  | transientExhausted
  /-- the re-raised non-retryable exception of line 397. -/
  | nonRetryable
deriving DecidableEq

instance {ε α : Type} [DecidableEq ε] [DecidableEq α] :
    DecidableEq (Except ε α) := fun a b =>
  match a, b with
  | .error e, .error f =>
    if h : e = f then .isTrue (by rw [h]) else .isFalse (by simp [h])
  | .ok x, .ok y =>
    if h : x = y then .isTrue (by rw [h]) else .isFalse (by simp [h])
  | .error _, .ok _ => .isFalse (by simp)
  | .ok _, .error _ => .isFalse (by simp)

/-- Observable behaviour of one `RecipeService.generate_recipe` call:
its return-or-raise, how many times `llm.invoke` ran, and the
`time.sleep` durations (in seconds) performed between attempts. -/
structure GenTrace where
  result : Except GenError Recipe
  invocations : Nat
  delays : List Nat
deriving DecidableEq

/-- Source: `max_retries = 2` in both the draft producer (line 347) and the
nutrition evaluator (nutrition_service.py, line 164). -/
def maxRetries : Nat := 2

/-- Source: `wait_time = (attempt + 1) * 2` — the "Exponential backoff: 2s, 4s"
schedule of recipe_service.py line 388 (and, for HTTP 429, of
nutrition_service.py line 194). -/
def backoffDelay (attempt : Nat) : Nat := (attempt + 1) * 2

/-- The `for attempt in range(max_retries)` loop of lines 350-397,
by recursion on the number of remaining iterations
(`remaining = maxRetries - attempt`, so `attempt < max_retries - 1`
iff `1 ≤ n` in the `n+1` case).  A validation error raises without
retrying; a parse error retries after `time.sleep(1)` (line 378) while
attempts remain, else raises; a transient error retries after
`time.sleep(backoffDelay attempt)` while attempts remain, else
re-raises; any other error re-raises immediately.  The `remaining = 0`
case is the post-loop `raise last_error` of line 401, unreachable
because every last-iteration branch returns or raises. -/
def genLoopAux (env : Nat → DraftOutcome) :
    Nat → Nat → Nat → List Nat → GenTrace
  | 0, _, inv, ds => ⟨.error .transientExhausted, inv, ds⟩
  | n + 1, attempt, inv, ds =>
    match env attempt with
    | .success r => ⟨.ok r, inv + 1, ds⟩
    | .validationError => ⟨.error .parseFailure, inv + 1, ds⟩
    | .parseError =>
      if 1 ≤ n then genLoopAux env n (attempt + 1) (inv + 1) (ds ++ [1])
      else ⟨.error .parseFailure, inv + 1, ds⟩
    | .transient =>
      if 1 ≤ n then
        genLoopAux env n (attempt + 1) (inv + 1) (ds ++ [backoffDelay attempt])
      else ⟨.error .transientExhausted, inv + 1, ds⟩
    | .otherError => ⟨.error .nonRetryable, inv + 1, ds⟩

/-- Model of the retry loop of `RecipeService.generate_recipe`, started at attempt 0
with `maxRetries` iterations available. -/
def runGen (env : Nat → DraftOutcome) : GenTrace :=
  genLoopAux env maxRetries 0 0 []

/-! ### Nutrition evaluator (nutrition_service.py, lines 125-227) -/

/-- One entry of the `nutrients` list of the Spoonacular response:
its `name` and `amount`. -/
structure NutrientEntry where
  name : String
  amount : ℚ
deriving DecidableEq

/-- The six-key `nutrition_dict` built by `_extract_nutrition_data`
(lines 97-104), each value defaulting to 0. -/
structure NutritionDict where
  calories : ℚ
  protein : ℚ
  carbs : ℚ
  fats : ℚ
  fiber : ℚ
  sugar : ℚ
deriving DecidableEq

/-- Source: `self.nutrient_map` (lines 27-34), in dict insertion order. -/
def nutrientMap : List (String × List String) :=
  [("calories", ["calories", "energy"]),
   ("protein", ["protein"]),
   ("carbs", ["carbohydrate", "carbs", "carbohydrates"]),
   ("fats", ["fat", "total fat"]),
   ("fiber", ["fiber", "dietary fiber"]),
   ("sugar", ["sugar", "sugars"])]

/-- The reverse lookup `name_to_key` of lines 107-110 (nutrient name →
nutrition key), preserving dict insertion order. -/
def nameToKey : List (String × String) :=
  (nutrientMap.map (fun p => p.2.map (fun n => (n, p.1)))).flatten

/-- Tests whether `needle` is a prefix of `hay` (character lists). -/
def isPrefixCh : List Char → List Char → Bool
  | [], _ => true
  | _ :: _, [] => false
  | a :: as, b :: bs => a = b && isPrefixCh as bs

/-- Python's substring test `needle in hay` on character lists. -/
def isSubstrCh (needle : List Char) : List Char → Bool
  | [] => isPrefixCh needle []
  | b :: bs => isPrefixCh needle (b :: bs) || isSubstrCh needle bs

/-- The `.lower().strip()` of line 114 on a character list (lower-casing each
character, then trimming leading and trailing whitespace). -/
def lowerStrip (s : String) : List Char :=
  (((s.toList.map Char.toLower).dropWhile Char.isWhitespace).reverse.dropWhile
    Char.isWhitespace).reverse

/-- Python's `round(x, 2)` on an exact value: round `x * 100` to the
nearest integer, ties to even, and divide back. -/
def roundTo2 (x : ℚ) : ℚ :=
  let y := x * 100
  let f := ⌊y⌋
  let r := y - (f : ℚ)
  let n : ℤ :=
    if r < 1 / 2 then f
    else if 1 / 2 < r then f + 1
    else if f % 2 = 0 then f else f + 1
  (n : ℚ) / 100

/-- The first `(mapped_name, key)` pair of `name_to_key` whose name is a
substring of the normalized nutrient name (the inner loop with `break`,
lines 118-121). -/
def findNutrientKey (normName : List Char) : Option String :=
  (nameToKey.find? (fun p => isSubstrCh p.1.toList normName)).map (·.2)

/-- Model of `nutrition_dict[key] = round(amount, 2)` for the six keys. -/
def setNutrient (d : NutritionDict) (key : String) (v : ℚ) : NutritionDict :=
  if key = "calories" then { d with calories := v }
  else if key = "protein" then { d with protein := v }
  else if key = "carbs" then { d with carbs := v }
  else if key = "fats" then { d with fats := v }
  else if key = "fiber" then { d with fiber := v }
  else if key = "sugar" then { d with sugar := v }
  else d

/-- Model of `_extract_nutrition_data` (lines 87-123): fold over the nutrients,
normalizing each name and writing the rounded amount into the first
matching key. -/
def extractNutritionData (nutrients : List NutrientEntry) : NutritionDict :=
  nutrients.foldl
    (fun d nut =>
      match findNutrientKey (lowerStrip nut.name) with
      | some k => setNutrient d k (roundTo2 nut.amount)
      | none => d)
    ⟨0, 0, 0, 0, 0, 0⟩

/-- Outcome of one `self.client.post` attempt of
`get_recipe_nutrition` (lines 166-225), as decided by the upstream
service/transport. -/
inductive NutritionOutcome
  /-- HTTP 200 with the given `nutrition.nutrients` list (line 176). -/
  | ok200 (nutrients : List NutrientEntry)
  /-- HTTP 429, rate limited (line 193). -/
  | status429
  /-- HTTP 402, quota exceeded (line 198). -/
  | status402
  /-- any other HTTP status (line 201). -/
  | statusOther
  /-- A raised `httpx.TimeoutException` (line 208). -/
  | timeoutErr
  /-- A raised `httpx.RequestError` (line 214). -/
  | requestErr
  /-- any other exception while processing (line 220). -/
  | processingErr
deriving DecidableEq

/-- Observable behaviour of one `get_recipe_nutrition` call: the
returned value (never an exception — every handler returns or
continues), the number of HTTP calls, and the sleeps performed. -/
structure NutritionTrace where
  result : Option NutritionDict
  httpCalls : Nat
  delays : List Nat
deriving DecidableEq

/-- The `for attempt in range(max_retries)` loop of lines 165-225, by
recursion on remaining iterations as in `genLoopAux`.  HTTP 200 returns
the extracted dict, or `None` when the nutrients list is empty
(line 185); HTTP 429 sleeps `backoffDelay attempt` and continues — even
on the last attempt, after which the loop exits into the post-loop
`return None` of line 227; HTTP 402 returns `None` immediately; other
statuses, timeouts, transport errors and processing errors sleep 1s and
retry while attempts remain, else return `None`. -/
def nutritionLoopAux (env : Nat → NutritionOutcome) :
    Nat → Nat → Nat → List Nat → NutritionTrace
  | 0, _, calls, ds => ⟨none, calls, ds⟩
  | n + 1, attempt, calls, ds =>
    match env attempt with
    | .ok200 nutrients =>
      if nutrients.isEmpty then ⟨none, calls + 1, ds⟩
      else ⟨some (extractNutritionData nutrients), calls + 1, ds⟩
    | .status429 =>
      nutritionLoopAux env n (attempt + 1) (calls + 1)
        (ds ++ [backoffDelay attempt])
    | .status402 => ⟨none, calls + 1, ds⟩
    | .statusOther =>
      if 1 ≤ n then nutritionLoopAux env n (attempt + 1) (calls + 1) (ds ++ [1])
      else ⟨none, calls + 1, ds⟩
    | .timeoutErr =>
      if 1 ≤ n then nutritionLoopAux env n (attempt + 1) (calls + 1) (ds ++ [1])
      else ⟨none, calls + 1, ds⟩
    | .requestErr =>
      if 1 ≤ n then nutritionLoopAux env n (attempt + 1) (calls + 1) (ds ++ [1])
      else ⟨none, calls + 1, ds⟩
    | .processingErr =>
      if 1 ≤ n then nutritionLoopAux env n (attempt + 1) (calls + 1) (ds ++ [1])
      else ⟨none, calls + 1, ds⟩

/-- Model of the retry loop of `NutritionService.get_recipe_nutrition`, started at
attempt 0 with `maxRetries` iterations available. -/
def runNutrition (env : Nat → NutritionOutcome) : NutritionTrace :=
  nutritionLoopAux env maxRetries 0 0 []

/-! ### Concrete inputs used by witnesses and counterexamples -/

/-- A Pinecone match with score 0.9 whose recipe id "a" the user has
saved. -/
def matchSaved : PMatch := ⟨9 / 10, some "a", none, "A"⟩

/-- A Pinecone match with score 0.85 whose recipe id "c" the user has
liked (but not saved). -/
def matchLiked : PMatch := ⟨85 / 100, some "c", none, "C"⟩

/-- A Pinecone match with score 0.8 whose recipe id "b" the user has
neither saved nor liked. -/
def matchNeither : PMatch := ⟨8 / 10, some "b", none, "B"⟩

/-- The formatted candidate built from `matchSaved` for a user whose
saved set is `["a"]` and liked set is `["c"]`. -/
def candSaved : Candidate := ⟨"a", "A", 9 / 10, true, false⟩

/-- The formatted candidate built from `matchLiked` for that user. -/
def candLiked : Candidate := ⟨"c", "C", 85 / 100, false, true⟩

/-- The formatted candidate built from `matchNeither` for that user. -/
def candNeither : Candidate := ⟨"b", "B", 8 / 10, false, false⟩

/-- A pipeline environment in which every draft call succeeds (with a
one-serving draft) and every nutrition call yields no data. -/
def envNutritionAlwaysNone : PipelineEnv :=
  ⟨fun _ => .ok ⟨1⟩, fun _ => none⟩

/-- A draft-producer environment: parse error on the first attempt,
success on the second. -/
def envParseThenOk : Nat → DraftOutcome :=
  fun k => if k = 0 then .parseError else .success ⟨1⟩

/-- A draft-producer environment failing with a pydantic validation
error on every attempt. -/
def envValidationAlways : Nat → DraftOutcome := fun _ => .validationError

/-- A draft-producer environment failing with a (non-validation) parse
error on every attempt. -/
def envParseAlways : Nat → DraftOutcome := fun _ => .parseError

/-- A draft-producer environment failing transiently on every attempt. -/
def envTransientAlways : Nat → DraftOutcome := fun _ => .transient

/-- A draft-producer environment raising a non-retryable error on every
attempt. -/
def envOtherAlways : Nat → DraftOutcome := fun _ => .otherError

/-- A nutrition environment answering HTTP 402 on every attempt. -/
def envQuotaAlways : Nat → NutritionOutcome := fun _ => .status402

/-- A nutrition environment timing out on every attempt. -/
def envTimeoutAlways : Nat → NutritionOutcome := fun _ => .timeoutErr

/-! ### Helper lemmas -/

lemma mem_insertDescBy {α : Type} (ge : α → α → Bool) (x a : α) :
    ∀ l : List α, a ∈ insertDescBy ge x l → a = x ∨ a ∈ l := by
  intro l
  induction l with
  | nil => simp [insertDescBy]
  | cons y ys ih =>
    simp only [insertDescBy]
    split
    · intro h
      rcases List.mem_cons.mp h with h | h
      · exact Or.inl h
      · exact Or.inr h
    · intro h
      rcases List.mem_cons.mp h with h | h
      · exact Or.inr (List.mem_cons.mpr (Or.inl h))
      · rcases ih h with h | h
        · exact Or.inl h
        · exact Or.inr (List.mem_cons.mpr (Or.inr h))

lemma mem_sortDescBy {α : Type} (ge : α → α → Bool) (a : α) :
    ∀ l : List α, a ∈ sortDescBy ge l → a ∈ l := by
  intro l
  induction l with
  | nil => simp [sortDescBy]
  | cons y ys ih =>
    intro h
    rcases mem_insertDescBy ge y a (sortDescBy ge ys) h with h | h
    · exact List.mem_cons.mpr (Or.inl h)
    · exact List.mem_cons.mpr (Or.inr (ih h))

lemma mem_buildResults_score (savedIds likedIds : List String) (c : Candidate) :
    ∀ ms : List PMatch, c ∈ buildResults savedIds likedIds ms →
      similarityThreshold ≤ c.similarity_score := by
  intro ms
  induction ms with
  | nil => simp [buildResults]
  | cons m rest ih =>
    simp only [buildResults]
    split
    · exact ih
    · split
      · exact ih
      · intro h
        rcases List.mem_cons.mp h with h | h
        · subst h
          simpa using le_of_not_lt (by assumption)
        · exact ih h

/-! ### Claim theorems -/

/-- C4: for every similarity query, no returned candidate has a
`similarity_score` below the fixed relevance threshold 0.75, and the
result list contains at most `top_k` candidates. -/
theorem c4_threshold_and_topk (rawMatches : List PMatch) (topK : Nat)
    (userId : Option String) (savedIds likedIds : List String) :
    (∀ c ∈ findSimilarRecipes rawMatches topK userId savedIds likedIds,
       similarityThreshold ≤ c.similarity_score)
    ∧ (findSimilarRecipes rawMatches topK userId savedIds likedIds).length ≤ topK := by
  constructor
  · intro c hc
    simp only [findSimilarRecipes] at hc
    have hmem := List.mem_of_mem_take hc
    split at hmem <;> split at hmem <;>
      exact mem_buildResults_score _ _ _ _ (mem_sortDescBy _ _ _ hmem)
  · simp only [findSimilarRecipes]
    exact List.length_take_le _ _

/-- Witness for C4 at a concrete query: the single returned candidate
(built from `matchNeither`, score 0.8) meets the threshold, and at most
5 results are returned. -/
theorem c4_witness :
    candNeither ∈ findSimilarRecipes [matchNeither] 5 none [] []
    ∧ similarityThreshold ≤ candNeither.similarity_score
    ∧ (findSimilarRecipes [matchNeither] 5 none [] []).length ≤ 5 := by
  have hmem : candNeither ∈ findSimilarRecipes [matchNeither] 5 none [] [] := by
    norm_num [findSimilarRecipes, buildResults, resolveId, pyTruthy,
      similarityThreshold, sortDescBy, insertDescBy, scoreKeyGe, matchNeither,
      candNeither]
  exact ⟨hmem, (c4_threshold_and_topk [matchNeither] 5 none [] []).1 candNeither hmem,
    (c4_threshold_and_topk [matchNeither] 5 none [] []).2⟩

/-- C1: evaluation of `find_similar_recipes` at a failing input for a
user who has BOTH saved and liked affinities.  For user "u1" with saved
set `["a"]` and liked set `["c"]`, the matches with the saved id "a"
(raw score 0.9), the liked id "c" (raw score 0.85) and the unrelated id
"b" (raw score 0.8) come back ordered
`[candNeither, candLiked, candSaved]`: the saved-affinity candidate
ranks BELOW both the liked and the neither candidate, and the liked
candidate ranks below the neither candidate (despite the raw scores
ordering the other way), because line 183's `reverse=True` applied to
the key `(0 if saved else 1 if liked else 2, score)` of line 180 orders
the affinity rank descending, contradicting the claim (and the source's
own comment "Sort by: user saved > user liked > similarity score" at
line 174). -/
theorem c1_saved_ranks_below_neither :
    findSimilarRecipes [matchSaved, matchLiked, matchNeither] 5 (some "u1")
        ["a"] ["c"] =
      [candNeither, candLiked, candSaved]
    ∧ candSaved.is_user_saved = true
    ∧ candLiked.is_user_saved = false
    ∧ candLiked.is_user_liked = true
    ∧ candNeither.is_user_saved = false
    ∧ candNeither.is_user_liked = false
    ∧ candNeither.similarity_score < candLiked.similarity_score
    ∧ candLiked.similarity_score < candSaved.similarity_score := by
  have h1 : ("u1" : String).isEmpty = false := rfl
  have h2 : (("b" : String) = "a") = False := by simp
  have h3 : (("c" : String) = "a") = False := by simp
  have h4 : (("a" : String) = "c") = False := by simp
  have h5 : (("b" : String) = "c") = False := by simp
  refine ⟨?_, rfl, rfl, rfl, rfl, rfl,
    by norm_num [candNeither, candLiked],
    by norm_num [candLiked, candSaved]⟩
  norm_num [findSimilarRecipes, buildResults, resolveId, pyTruthy,
    similarityThreshold, sortDescBy, insertDescBy, affinityKeyGe, affinityRank,
    scoreKeyGe, matchSaved, matchLiked, matchNeither, candSaved, candLiked,
    candNeither, h1, h2, h3, h4, h5]

/-- C3: the calorie check fails (produces an issue) exactly when
nutrition is unavailable, or actual calories fall below
`min_calories − 100`, or `|actual − target_calories| ≥ 100` (with the
"too high" / "too low" distinction carried by the issue constructor);
in particular for `calorie_range = "1800-2200"` (parsed as target 2200,
min 1800), actual calories 2350 produce exactly one "too high" issue
referencing a 150 kcal difference, and actual calories 1650 produce a
"too low" issue referencing a 150 kcal (= 1800 − 1650) deficit. -/
theorem c3_calorie_check :
    (∀ (t : CalorieTargets) (a : Option ℚ),
       calorieIssues (some t) a ≠ [] ↔
         a = none ∨ ∃ x, a = some x ∧
           (x < t.min_calories - 100 ∨ 100 ≤ |x - t.target_calories|))
    ∧ parseCalorieRange (some "1800-2200") = some ⟨2200, 1800⟩
    ∧ calorieIssues (some ⟨2200, 1800⟩) (some 2350) =
        [Issue.calTooHigh 2350 2200 150 150]
    ∧ calorieIssues (some ⟨2200, 1800⟩) (some 1650) =
        [Issue.calTooLowBelowMin 1650 1800 2200 150] := by
  refine ⟨?_, by decide, by norm_num [calorieIssues], by norm_num [calorieIssues]⟩
  intro t a
  cases a with
  | none => simp [calorieIssues]
  | some x =>
    simp only [calorieIssues, ne_eq]
    split_ifs with h1 h2 h3
    · simp [h1]
    · simp [h2]
    · simp [h2]
    · simp [h1, h2]

/-- C7: the protein check fails exactly when a protein value is present
in the nutrition profile and the per-serving deviation
`|actual_protein / serving_size − protein_target_per_serving|` exceeds
the 10 g tolerance; in particular with target 30 g per serving, serving
size 2 and total protein 50 g, the per-serving value 25 g deviates by
5 g and the check passes. -/
theorem c7_protein_check :
    (∀ (t s : ℚ) (p : Option ℚ), 1 ≤ s →
       (proteinMet (some t) s p = false ↔
         ∃ x, p = some x ∧ proteinTolerance < |x / s - t|))
    ∧ proteinMet (some 30) 2 (some 50) = true
    ∧ proteinIssues (some 30) 2 (some 50) = []
    ∧ |(50 : ℚ) / 2 - 30| = 5 := by
  refine ⟨?_, by norm_num [proteinMet, proteinTolerance],
    by norm_num [proteinIssues, proteinTolerance], by norm_num⟩
  intro t s p _hs
  cases p with
  | none => simp [proteinMet]
  | some x => simp [proteinMet, not_le]

/-- Witness for C7 at the concrete input of the claim: serving size 2
satisfies the hypothesis `1 ≤ s`, and instantiating the check
characterization at target 30, serving size 2, total protein 50 g shows
the failure condition is `10 < |50 / 2 − 30| = 5`, which is false — the
check passes. -/
theorem c7_witness :
    (1 : ℚ) ≤ 2 ∧
    (proteinMet (some 30) 2 (some 50) = false ↔
      ∃ x, (some (50 : ℚ)) = some x ∧ proteinTolerance < |x / 2 - 30|) :=
  ⟨by norm_num, (c7_protein_check).1 30 2 (some 50) (by norm_num)⟩

lemma validateConstraints_noNutrition_not_met (t : CalorieTargets)
    (pt : Option ℚ) (s : ℚ) (ap : Option ℚ) :
    (validateConstraints (some t) pt s none ap).constraintsMet = false := by
  simp [validateConstraints, calorieIssues]

lemma constraintLoop_draftCalls_le :
    ∀ (f : Nat) (env : PipelineEnv) (ct : Option CalorieTargets)
      (pt : Option ℚ) (r : Recipe) (nut : Option NutritionData)
      (attempts d n : Nat),
      maxConstraintAttempts - attempts ≤ f →
      (constraintLoop env ct pt r nut attempts d n).draftCalls ≤
        d + (maxConstraintAttempts - 1 - attempts) := by
  intro f
  induction f with
  | zero =>
    intro env ct pt r nut attempts d n hf
    rw [constraintLoop]
    have h : ¬ attempts < maxConstraintAttempts := by omega
    simp [h]
  | succ f ih =>
    intro env ct pt r nut attempts d n hf
    rw [constraintLoop]
    split
    · split
      · simp
      · split
        · split
          · dsimp only
            split
            · simp
            · simp only [maxConstraintAttempts] at *
              simp
              omega
          · dsimp only
            split
            · simp
            · rename_i x r' heq hmet
              have hrec := ih env ct pt r' (env.nutrition (attempts + 1))
                (attempts + 1) (d + 1) (n + 1)
                (by simp only [maxConstraintAttempts] at *; omega)
              refine le_trans hrec ?_
              simp only [maxConstraintAttempts] at *
              omega
        · dsimp only
          split
          · simp
          · simp
    · simp

lemma constraintLoop_noNut_step (env : PipelineEnv) (t : CalorieTargets)
    (pt : Option ℚ) (r r' : Recipe) (attempts d n : Nat)
    (ha : attempts < 2) (hd : env.draft (attempts + 1) = Except.ok r')
    (hn : env.nutrition (attempts + 1) = none) :
    constraintLoop env (some t) pt r none attempts d n =
      constraintLoop env (some t) pt r' none (attempts + 1) (d + 1) (n + 1) := by
  rw [constraintLoop]
  have h3 : attempts < maxConstraintAttempts := by
    simp only [maxConstraintAttempts]; omega
  have h2 : attempts < maxConstraintAttempts - 1 := by
    simp only [maxConstraintAttempts]; omega
  simp [h3, h2, validateConstraints_noNutrition_not_met, hd, hn]

lemma constraintLoop_noNut_exhausted (env : PipelineEnv) (t : CalorieTargets)
    (pt : Option ℚ) (r : Recipe) (d n : Nat) :
    constraintLoop env (some t) pt r none 2 d n =
      { draftCalls := d, nutritionCalls := n, exitReason := ExitReason.exhausted,
        finalRecipe := some r, finalNutrition := none } := by
  rw [constraintLoop]
  simp [maxConstraintAttempts, validateConstraints_noNutrition_not_met]

/-- C2: the constraint-validation loop invokes the draft producer at
most 3 times total for any single request; and when the nutrition
evaluator returns no data on every attempt while a calorie constraint is
set (and every regeneration succeeds, so that the loop runs its full
course), the run terminates with `EXHAUSTED` after exactly 3 draft calls
and 3 nutrition calls instead of looping indefinitely. -/
theorem c2_at_most_three_draft_calls :
    (∀ (env : PipelineEnv) (calorieRange : Option String) (pt : Option ℚ),
       (generateRecipePipeline env calorieRange pt).draftCalls ≤ 3)
    ∧ (∀ (env : PipelineEnv) (calorieRange : Option String) (pt : Option ℚ)
         (t : CalorieTargets),
         parseCalorieRange calorieRange = some t →
         (∀ k, env.nutrition k = none) →
         (∀ k, ∃ r, env.draft k = Except.ok r) →
         (generateRecipePipeline env calorieRange pt).exitReason =
             ExitReason.exhausted
         ∧ (generateRecipePipeline env calorieRange pt).draftCalls = 3
         ∧ (generateRecipePipeline env calorieRange pt).nutritionCalls = 3) := by
  constructor
  · intro env crs pt
    simp only [generateRecipePipeline]
    split
    · simp
    · rename_i x r0 heq
      have hb := constraintLoop_draftCalls_le maxConstraintAttempts env
        (parseCalorieRange crs) pt r0 (env.nutrition 0) 0 1 1 (by omega)
      simp only [maxConstraintAttempts] at hb
      omega
  · intro env crs pt t hparse hn hd
    obtain ⟨r0, h0⟩ := hd 0
    obtain ⟨r1, h1⟩ := hd 1
    obtain ⟨r2, h2⟩ := hd 2
    have e : generateRecipePipeline env crs pt =
        { draftCalls := 3, nutritionCalls := 3,
          exitReason := ExitReason.exhausted, finalRecipe := some r2,
          finalNutrition := none } := by
      simp only [generateRecipePipeline, hparse, h0, hn 0]
      rw [constraintLoop_noNut_step env t pt r0 r1 0 1 1 (by omega) h1 (hn 1),
        constraintLoop_noNut_step env t pt r1 r2 1 2 2 (by omega) h2 (hn 2),
        constraintLoop_noNut_exhausted]
    rw [e]
    exact ⟨rfl, rfl, rfl⟩

/-- Witness for C2 at a concrete run: drafts always succeed, nutrition
always returns no data, calorie range "1800-2200"; the hypotheses hold
and the run exhausts after exactly 3 draft calls and 3 nutrition
calls. -/
theorem c2_witness :
    parseCalorieRange (some "1800-2200") = some ⟨2200, 1800⟩
    ∧ (∀ k, envNutritionAlwaysNone.nutrition k = none)
    ∧ (∀ k, ∃ r, envNutritionAlwaysNone.draft k = Except.ok r)
    ∧ (generateRecipePipeline envNutritionAlwaysNone (some "1800-2200")
         none).draftCalls ≤ 3
    ∧ (generateRecipePipeline envNutritionAlwaysNone (some "1800-2200")
         none).exitReason = ExitReason.exhausted
    ∧ (generateRecipePipeline envNutritionAlwaysNone (some "1800-2200")
         none).draftCalls = 3
    ∧ (generateRecipePipeline envNutritionAlwaysNone (some "1800-2200")
         none).nutritionCalls = 3 := by
  have hp : parseCalorieRange (some "1800-2200") = some ⟨2200, 1800⟩ := by decide
  have hn : ∀ k, envNutritionAlwaysNone.nutrition k = none := fun _ => rfl
  have hd : ∀ k, ∃ r, envNutritionAlwaysNone.draft k = Except.ok r :=
    fun _ => ⟨⟨1⟩, rfl⟩
  have h2 := (c2_at_most_three_draft_calls).2 envNutritionAlwaysNone
    (some "1800-2200") none ⟨2200, 1800⟩ hp hn hd
  exact ⟨hp, hn, hd,
    (c2_at_most_three_draft_calls).1 envNutritionAlwaysNone (some "1800-2200") none,
    h2.1, h2.2.1, h2.2.2⟩

/-- C6: a generation request that supplies neither a calorie range nor a
protein target accepts the first draft unconditionally: the loop breaks
at its no-constraints check on the first pass, after exactly one
draft-generation call and one nutrition call, with no regeneration. -/
theorem c6_no_constraints_single_pass (env : PipelineEnv) (r0 : Recipe)
    (h : env.draft 0 = Except.ok r0) :
    generateRecipePipeline env none none =
      { draftCalls := 1, nutritionCalls := 1,
        exitReason := ExitReason.noConstraints, finalRecipe := some r0,
        finalNutrition := env.nutrition 0 } := by
  simp only [generateRecipePipeline, parseCalorieRange, h]
  rw [constraintLoop]
  simp [maxConstraintAttempts]

/-- Witness for C6 at a concrete environment whose first draft call
succeeds with a one-serving draft. -/
theorem c6_witness :
    envNutritionAlwaysNone.draft 0 = Except.ok ⟨1⟩
    ∧ generateRecipePipeline envNutritionAlwaysNone none none =
        { draftCalls := 1, nutritionCalls := 1,
          exitReason := ExitReason.noConstraints, finalRecipe := some ⟨1⟩,
          finalNutrition := none } := by
  refine ⟨rfl, ?_⟩
  have h := c6_no_constraints_single_pass envNutritionAlwaysNone ⟨1⟩ rfl
  simpa [envNutritionAlwaysNone] using h

/-- C10: a `calorie_range` string that does not match the `"min-max"`
pattern, or whose parsed max is not strictly greater than min, leaves
`target_calories`/`min_calories` as `None`, and the pipeline then runs
exactly as if no calorie range had been supplied at all (same draft and
nutrition calls, same exit, no error reported). -/
theorem c10_malformed_range_ignored :
    (∀ s : String, matchCalorieRange s.toList = none →
       parseCalorieRange (some s) = none)
    ∧ (∀ (s : String) (mn mx : Nat),
         matchCalorieRange s.toList = some (mn, mx) → mx ≤ mn →
         parseCalorieRange (some s) = none)
    ∧ (∀ (s : String) (env : PipelineEnv) (pt : Option ℚ),
         parseCalorieRange (some s) = none →
         generateRecipePipeline env (some s) pt =
           generateRecipePipeline env none pt) := by
  refine ⟨?_, ?_, ?_⟩
  · intro s h
    simp only [String.toList] at h
    simp only [parseCalorieRange]
    split
    · rfl
    · simp [h]
  · intro s mn mx h hle
    have hcast : ¬ ((mn : ℚ) < (mx : ℚ)) := by
      rw [not_lt]
      exact_mod_cast hle
    simp only [String.toList] at h
    simp only [parseCalorieRange]
    split
    · rfl
    · simp [h, hcast]
  · intro s env pt h
    have hnone : parseCalorieRange none = none := rfl
    simp only [generateRecipePipeline, h, hnone]

/-- Witness for C10 at the concrete inverted range "2200-1800" (parsed
max 1800 is not above min 2200): the derived targets are `None` and the
pipeline behaves exactly as with no calorie range. -/
theorem c10_witness :
    matchCalorieRange ("2200-1800" : String).toList = some (2200, 1800)
    ∧ (1800 : Nat) ≤ 2200
    ∧ parseCalorieRange (some "2200-1800") = none
    ∧ generateRecipePipeline envNutritionAlwaysNone (some "2200-1800") none =
        generateRecipePipeline envNutritionAlwaysNone none none := by
  have hm : matchCalorieRange ("2200-1800" : String).toList =
      some (2200, 1800) := by decide
  have hp := (c10_malformed_range_ignored).2.1 "2200-1800" 2200 1800 hm
    (by norm_num)
  exact ⟨hm, by norm_num, hp,
    (c10_malformed_range_ignored).2.2 "2200-1800" envNutritionAlwaysNone none hp⟩

/-- C5 counterexample: the claim says a parsing failure of the model
output is never retried and surfaces as a hard failure.  In the
environment `envParseThenOk` the first attempt raises a (non-pydantic)
parse error, yet the draft producer sleeps 1s, retries, and returns the
second attempt's draft successfully: two `llm.invoke` calls and no
exception — the parse failure was retried and did not surface. -/
theorem c5_counterexample_parse_error_is_retried :
    envParseThenOk 0 = DraftOutcome.parseError
    ∧ (runGen envParseThenOk).invocations = 2
    ∧ (runGen envParseThenOk).delays = [1]
    ∧ (runGen envParseThenOk).result = Except.ok ⟨1⟩ := by
  refine ⟨rfl, ?_, ?_, ?_⟩ <;> decide

/-- C5 amended: a schema-validation failure (pydantic `ValidationError`)
of the model output is never retried and surfaces as a hard failure to
the caller after a single invocation; any other parsing failure is
retried once (after a 1s delay), and surfaces as a hard failure only
when the final attempt also fails to parse. -/
theorem c5_amended_validation_never_retried (env : Nat → DraftOutcome) :
    (env 0 = DraftOutcome.validationError →
       runGen env = ⟨Except.error GenError.parseFailure, 1, []⟩)
    ∧ (env 0 = DraftOutcome.parseError →
       (runGen env).invocations = 2 ∧ (runGen env).delays = [1])
    ∧ (env 0 = DraftOutcome.parseError → env 1 = DraftOutcome.parseError →
       (runGen env).result = Except.error GenError.parseFailure) := by
  refine ⟨?_, ?_, ?_⟩
  · intro h0
    simp [runGen, genLoopAux, maxRetries, h0]
  · intro h0
    cases h1 : env 1 <;> simp [runGen, genLoopAux, maxRetries, h0, h1]
  · intro h0 h1
    simp [runGen, genLoopAux, maxRetries, h0, h1]

/-- Witness for C5's amended claim at the concrete environments that
always raise a validation error / always raise a parse error. -/
theorem c5_witness :
    envValidationAlways 0 = DraftOutcome.validationError
    ∧ runGen envValidationAlways = ⟨Except.error GenError.parseFailure, 1, []⟩
    ∧ envParseAlways 0 = DraftOutcome.parseError
    ∧ envParseAlways 1 = DraftOutcome.parseError
    ∧ (runGen envParseAlways).invocations = 2
    ∧ (runGen envParseAlways).delays = [1]
    ∧ (runGen envParseAlways).result = Except.error GenError.parseFailure := by
  have hv := (c5_amended_validation_never_retried envValidationAlways).1 rfl
  have hp := (c5_amended_validation_never_retried envParseAlways).2.1 rfl
  have hp2 := (c5_amended_validation_never_retried envParseAlways).2.2 rfl rfl
  exact ⟨rfl, hv, rfl, rfl, hp.1, hp.2, hp2⟩

/-- C9: for every draft-producer invocation there are at most 2 attempts
total; a transient failure (timeout / connection error / upstream
transport fault, i.e. the `LangChainException`/`ConnectionError`/
`TimeoutError` clause) is retried, following the backoff schedule
`backoffDelay` (2s after the first attempt, 4s after the second — the
latter unreachable under the 2-attempt budget); a transient failure on
the final attempt re-raises; and any other exception propagates
immediately without retry. -/
theorem c9_transient_retry_policy (env : Nat → DraftOutcome) :
    (runGen env).invocations ≤ 2
    ∧ backoffDelay 0 = 2 ∧ backoffDelay 1 = 4
    ∧ (env 0 = DraftOutcome.transient →
       (runGen env).invocations = 2 ∧ (runGen env).delays = [backoffDelay 0])
    ∧ (env 0 = DraftOutcome.transient → env 1 = DraftOutcome.transient →
       (runGen env).result = Except.error GenError.transientExhausted)
    ∧ (env 0 = DraftOutcome.otherError →
       runGen env = ⟨Except.error GenError.nonRetryable, 1, []⟩) := by
  refine ⟨?_, rfl, rfl, ?_, ?_, ?_⟩
  · cases h0 : env 0 <;> cases h1 : env 1 <;>
      simp [runGen, genLoopAux, maxRetries, h0, h1]
  · intro h0
    cases h1 : env 1 <;>
      simp [runGen, genLoopAux, maxRetries, backoffDelay, h0, h1]
  · intro h0 h1
    simp [runGen, genLoopAux, maxRetries, h0, h1]
  · intro h0
    simp [runGen, genLoopAux, maxRetries, h0]

/-- Witness for C9 at the always-transient and always-other-error
environments. -/
theorem c9_witness :
    envTransientAlways 0 = DraftOutcome.transient
    ∧ envTransientAlways 1 = DraftOutcome.transient
    ∧ (runGen envTransientAlways).invocations = 2
    ∧ (runGen envTransientAlways).delays = [2]
    ∧ (runGen envTransientAlways).result =
        Except.error GenError.transientExhausted
    ∧ envOtherAlways 0 = DraftOutcome.otherError
    ∧ runGen envOtherAlways = ⟨Except.error GenError.nonRetryable, 1, []⟩ := by
  have ht := (c9_transient_retry_policy envTransientAlways).2.2.2.1 rfl
  have ht2 := (c9_transient_retry_policy envTransientAlways).2.2.2.2.1 rfl rfl
  have ho := (c9_transient_retry_policy envOtherAlways).2.2.2.2.2 rfl
  exact ⟨rfl, rfl, ht.1, ht.2, ht2, rfl, ho⟩

/-- C8: the nutrition evaluator makes at most 2 HTTP calls; an HTTP 402
quota-exhaustion answer on the first attempt produces an immediate
`None` with no retry and no backoff; a 200 answer with an empty
nutrients list also yields `None`; and whenever no attempt returns
HTTP 200 the call yields `None` — every unresolved failure path returns
a value rather than raising (each handler of lines 193-225 returns or
continues; no path re-raises). -/
theorem c8_nutrition_never_raises (env : Nat → NutritionOutcome) :
    (runNutrition env).httpCalls ≤ 2
    ∧ (env 0 = NutritionOutcome.status402 → runNutrition env = ⟨none, 1, []⟩)
    ∧ (env 0 = NutritionOutcome.ok200 [] → runNutrition env = ⟨none, 1, []⟩)
    ∧ ((∀ k l, env k ≠ NutritionOutcome.ok200 l) →
       (runNutrition env).result = none) := by
  refine ⟨?_, ?_, ?_, ?_⟩
  · cases h0 : env 0 <;> cases h1 : env 1 <;>
      simp [runNutrition, nutritionLoopAux, maxRetries, h0, h1] <;>
      split <;> simp
  · intro h0
    simp [runNutrition, nutritionLoopAux, maxRetries, h0]
  · intro h0
    simp [runNutrition, nutritionLoopAux, maxRetries, h0]
  · intro hno
    cases h0 : env 0 <;> cases h1 : env 1 <;>
      first
      | exact absurd h0 (hno 0 _)
      | exact absurd h1 (hno 1 _)
      | simp [runNutrition, nutritionLoopAux, maxRetries, h0, h1]

/-- Witness for C8 at the always-402 and always-timeout environments. -/
theorem c8_witness :
    envQuotaAlways 0 = NutritionOutcome.status402
    ∧ runNutrition envQuotaAlways = ⟨none, 1, []⟩
    ∧ (∀ k l, envTimeoutAlways k ≠ NutritionOutcome.ok200 l)
    ∧ (runNutrition envTimeoutAlways).result = none
    ∧ (runNutrition envTimeoutAlways).httpCalls ≤ 2 := by
  have hq := (c8_nutrition_never_raises envQuotaAlways).2.1 rfl
  have hno : ∀ k l, envTimeoutAlways k ≠ NutritionOutcome.ok200 l := by
    intro k l
    simp [envTimeoutAlways]
  have ht := (c8_nutrition_never_raises envTimeoutAlways).2.2.2 hno
  exact ⟨rfl, hq, hno, ht, (c8_nutrition_never_raises envTimeoutAlways).1⟩
